import Mathlib

/-!
Verification of the beausejour-backend flight-search proxy (`src/server.js`)
against its natural-language specification.

The development shallowly embeds the core of the server:
* the Amadeus access-token cache (`fetchAmadeusAccessToken`, lines 33-57),
* the request-body validation (`searchSchema`, lines 65-72; Joi is an
  external library, modelled here by the documented semantics of the checks
  the schema declares, on typed JSON fields),
* the offer normalization and post-fetch filter pipeline of the
  `POST /search` handler (lines 75-152).

JavaScript strings are Lean `String`s, JSON numbers are `Rat` (so that
non-integer inputs are representable), timestamps (`Date.now()`) are `Int`
milliseconds, and the two `Date.now()` calls inside the token routine are
two explicit parameters.  Network effects are made explicit: the provider's
responses are parameters, and each embedded operation reports the number of
network calls it issues.
-/

namespace Beausejour

/-! ## Token cache (`server.js` lines 33-57) -/

/-- The module-level mutable cache: `let accessToken = null` and
`let tokenExpiresAt = 0`.  `none` stands for JS `null`. -/
structure TokenState where
  accessToken : Option String
  tokenExpiresAt : Int
  deriving Repr, DecidableEq

/-- The initial cache state of a fresh process. -/
def initialTokenState : TokenState := ⟨none, 0⟩

/-- The provider's token-endpoint response body: `access_token` and
`expires_in` (seconds). -/
structure TokenResponse where
  access_token : String
  expires_in : Int
  deriving Repr, DecidableEq

/-- JS truthiness of the `accessToken` variable, as used by
`if (accessToken && ...)`: `null` is falsy, and so is the empty string. -/
def jsTruthyToken : Option String → Bool
  | none => false
  | some s => !(s == "")

/-- Result of one call to `fetchAmadeusAccessToken`: the returned token, the
cache state after the call, and how many network requests were issued. -/
structure FetchResult where
  token : String
  state : TokenState
  networkCalls : Nat
  deriving Repr, DecidableEq

/-- The function `fetchAmadeusAccessToken` (lines 37-57).  `now` is `Date.now()` at the
cache check (line 38) and `tNow` is `Date.now()` when the response is stored
(line 55).  `resp` is the provider's response to the token request, which is
only issued (and only counted) on the refresh path. -/
def fetchAmadeusAccessToken (st : TokenState) (now tNow : Int)
    (resp : TokenResponse) : FetchResult :=
  if jsTruthyToken st.accessToken && decide (now < st.tokenExpiresAt) then
    { token := st.accessToken.getD "", state := st, networkCalls := 0 }
  else
    { token := resp.access_token,
      state := { accessToken := some resp.access_token,
                 tokenExpiresAt := tNow + resp.expires_in * 1000 - 60000 },
      networkCalls := 1 }

/-! ## Provider offers and normalization (`server.js` lines 109-132) -/

/-- A departure or arrival record of a segment: `{iataCode, at}`. -/
structure Place where
  iataCode : String
  «at» : String
  deriving Repr, DecidableEq

/-- One flight segment of a raw provider offer. -/
structure Segment where
  carrierCode : String
  number : String
  departure : Place
  arrival : Place
  duration : String
  deriving Repr, DecidableEq

/-- The price block of a raw offer: `{total, currency}`, both strings in the
provider's response. -/
structure Price where
  total : String
  currency : String
  deriving Repr, DecidableEq

/-- One itinerary of a raw offer: an aggregate duration and an ordered
segment list. -/
structure Itinerary where
  duration : String
  segments : List Segment
  deriving Repr, DecidableEq

/-- A raw provider offer, restricted to the fields the handler reads. -/
structure RawOffer where
  itineraries : List Itinerary
  price : Price
  deriving Repr, DecidableEq

/-- A normalized per-segment record (lines 122-130). -/
structure NormSegment where
  airline : String
  flightNumber : String
  departureAirport : String
  departureTime : String
  arrivalAirport : String
  arrivalTime : String
  duration : String
  deriving Repr, DecidableEq

/-- A normalized offer as sent to the frontend (lines 112-131). -/
structure NormalizedOffer where
  airline : String
  flightNumber : String
  departureAirport : String
  departureTime : String
  arrivalAirport : String
  arrivalTime : String
  duration : String
  price : String
  stops : Nat
  segments : List NormSegment
  deriving Repr, DecidableEq

/-- Does `pat` occur as a prefix of `l`?  (The matching step of JS
`String.prototype.replace` with a string pattern.) -/
def matchesAt : List Char → List Char → Bool
  | [], _ => true
  | _ :: _, [] => false
  | p :: ps, c :: cs => p == c && matchesAt ps cs

/-- JS `String.prototype.replace` with a string pattern replaces only the
FIRST occurrence of the pattern (it is not a strip-prefix operation). -/
def listReplaceFirst (pat rep : List Char) : List Char → List Char
  | [] => if matchesAt pat [] then rep ++ List.drop pat.length [] else []
  | c :: cs =>
    if matchesAt pat (c :: cs) then rep ++ List.drop pat.length (c :: cs)
    else c :: listReplaceFirst pat rep cs

/-- JS `s.replace(pat, rep)` (string pattern). -/
def jsReplaceFirst (s pat rep : String) : String :=
  ⟨listReplaceFirst pat.data rep.data s.data⟩

/-- JS `toLowerCase()` (character-wise; all strings involved are ASCII). -/
def jsToLowerCase (s : String) : String :=
  ⟨s.data.map Char.toLower⟩

/-- JS `toUpperCase()` (character-wise; all strings involved are ASCII). -/
def jsToUpperCase (s : String) : String :=
  ⟨s.data.map Char.toUpper⟩

/-- The segment mapping of lines 122-130: every field is copied verbatim,
the segment-level `duration` included. -/
def normalizeSegment (seg : Segment) : NormSegment :=
  { airline := seg.carrierCode,
    flightNumber := seg.number,
    departureAirport := seg.departure.iataCode,
    departureTime := seg.departure.«at»,
    arrivalAirport := seg.arrival.iataCode,
    arrivalTime := seg.arrival.«at»,
    duration := seg.duration }

/-- The offer mapping of lines 109-132.  The JS code indexes
`offer.itineraries[0]`, `segments[0]` and `segments[segments.length - 1]`
with no guard; an out-of-range access yields `undefined` whose field access
throws, so the embedding returns `none` there (the thrown `TypeError` is
observed by the route's catch block, modelled below in `handleSearch`). -/
def normalizeOffer (offer : RawOffer) : Option NormalizedOffer :=
  match offer.itineraries with
  | [] => none
  | itinerary :: _ =>
    match itinerary.segments with
    | [] => none
    | s0 :: rest =>
      some { airline := s0.carrierCode,
             flightNumber := s0.number,
             departureAirport := s0.departure.iataCode,
             departureTime := s0.departure.«at»,
             arrivalAirport := ((s0 :: rest).getLast (List.cons_ne_nil s0 rest)).arrival.iataCode,
             arrivalTime := ((s0 :: rest).getLast (List.cons_ne_nil s0 rest)).arrival.«at»,
             duration := jsToLowerCase (jsReplaceFirst itinerary.duration "PT" ""),
             price := offer.price.total ++ " " ++ offer.price.currency,
             stops := (s0 :: rest).length - 1,
             segments := (s0 :: rest).map normalizeSegment }

/-- Modelled from the spec sentence only (for comparison with the code):
"`duration`: strip the literal prefix `PT` from the itinerary's duration
token and lower-case the remainder". -/
def stripPTPrefixLower (s : String) : String :=
  if matchesAt "PT".data s.data then jsToLowerCase (String.mk (s.data.drop 2))
  else jsToLowerCase s

/-! ## Request-body validation (`server.js` lines 65-82)

The request body is a JSON object; the six declared keys are given typed
fields (`none` = key absent) and every further key is collected in
`unknownKeys`.  `searchSchema` is a Joi schema; Joi is an outside library,
so its declared checks are modelled by their documented semantics:
`validate` with `abortEarly: false` collects one message per failed rule,
unknown keys are rejected by default, `trim()`/`uppercase()` convert, and
`number().integer()` accepts exactly the integral numbers. -/

/-- A `POST /search` request body. -/
structure ReqBody where
  origin : Option String
  destination : Option String
  date : Option String
  adults : Option Rat
  preferredAirlines : Option (List String)
  stops : Option Rat
  unknownKeys : List String
  deriving Repr, DecidableEq

/-- JS whitespace test for `trim()` (the ASCII whitespace characters). -/
def isSpaceChar (c : Char) : Bool :=
  c == ' ' || c == '\t' || c == '\n' || c == '\r'

/-- JS `trim()`. -/
def jsTrim (s : String) : String :=
  ⟨((s.data.dropWhile isSpaceChar).reverse.dropWhile isSpaceChar).reverse⟩

/-- The date pattern of the schema: `/^\d{4}-\d{2}-\d{2}$/`. -/
def validDatePattern (s : String) : Bool :=
  match s.data with
  | [y1, y2, y3, y4, h1, m1, m2, h2, d1, d2] =>
    y1.isDigit && y2.isDigit && y3.isDigit && y4.isDigit && h1 == '-' &&
    m1.isDigit && m2.isDigit && h2 == '-' && d1.isDigit && d2.isDigit
  | _ => false

/-- Errors of `Joi.string().trim().length(3).uppercase().required()`,
used for both `origin` and `destination`. -/
def codeFieldErrors (key : String) (v : Option String) : List String :=
  match v with
  | none => ["\"" ++ key ++ "\" is required"]
  | some s =>
    if (jsTrim s).length == 3 then []
    else ["\"" ++ key ++ "\" length must be 3 characters long"]

/-- Errors of `Joi.string().pattern(/^\d{4}-\d{2}-\d{2}$/).required()`. -/
def dateErrors (v : Option String) : List String :=
  match v with
  | none => ["\"date\" is required"]
  | some s =>
    if validDatePattern s then []
    else ["\"date\" fails to match the required pattern"]

/-- Errors of `Joi.number().integer().min(1).max(9).required()` for
`adults`.  A `Rat` is integral exactly when its denominator is 1. -/
def adultsErrors (v : Option Rat) : List String :=
  match v with
  | none => ["\"adults\" is required"]
  | some r =>
    (if r.den == 1 then [] else ["\"adults\" must be an integer"]) ++
    (if (1 : Rat) ≤ r then [] else ["\"adults\" must be greater than or equal to 1"]) ++
    (if r ≤ (9 : Rat) then [] else ["\"adults\" must be less than or equal to 9"])

/-- Errors of the optional
`Joi.array().items(Joi.string().trim().uppercase().length(2))` for
`preferredAirlines`. -/
def airlinesErrors (v : Option (List String)) : List String :=
  match v with
  | none => []
  | some l =>
    l.foldr
      (fun s acc =>
        (if (jsTrim s).length == 2 then []
         else ["\"preferredAirlines\" item length must be 2 characters long"]) ++ acc)
      []

/-- Errors of the optional `Joi.number().integer().min(0).max(3)` for
`stops`. -/
def stopsErrors (v : Option Rat) : List String :=
  match v with
  | none => []
  | some r =>
    (if r.den == 1 then [] else ["\"stops\" must be an integer"]) ++
    (if (0 : Rat) ≤ r then [] else ["\"stops\" must be greater than or equal to 0"]) ++
    (if r ≤ (3 : Rat) then [] else ["\"stops\" must be less than or equal to 3"])

/-- All messages collected by `searchSchema.validate(req.body,
{ abortEarly: false })`: one sub-list per declared key, plus one
`"... is not allowed"` message per unknown key (Joi forbids unknown object
keys by default). -/
def searchSchemaErrors (b : ReqBody) : List String :=
  codeFieldErrors "origin" b.origin ++
  codeFieldErrors "destination" b.destination ++
  dateErrors b.date ++
  adultsErrors b.adults ++
  airlinesErrors b.preferredAirlines ++
  stopsErrors b.stops ++
  b.unknownKeys.map (fun k => "\"" ++ k ++ "\" is not allowed")

/-- The validated (and converted) value produced by a successful
`searchSchema.validate`: codes trimmed and upper-cased, numbers integral
(represented by their numerator, which equals the value when the
denominator is 1). -/
structure ValidQuery where
  origin : String
  destination : String
  date : String
  adults : Int
  preferredAirlines : Option (List String)
  stops : Option Int
  deriving Repr, DecidableEq

/-- The call `searchSchema.validate(req.body, with abortEarly false)`: either the
full error list or the converted value. -/
def validateSearch (b : ReqBody) : Except (List String) ValidQuery :=
  let errs := searchSchemaErrors b
  match b.origin, b.destination, b.date, b.adults with
  | some o, some d, some dt, some a =>
    if errs.isEmpty then
      Except.ok
        { origin := jsToUpperCase (jsTrim o),
          destination := jsToUpperCase (jsTrim d),
          date := dt,
          adults := a.num,
          preferredAirlines :=
            b.preferredAirlines.map (List.map (fun s => jsToUpperCase (jsTrim s))),
          stops := b.stops.map Rat.num }
    else Except.error errs
  | _, _, _, _ => Except.error errs

/-! ## The `POST /search` handler (`server.js` lines 75-152) -/

/-- The stops filter (lines 135-137): applied only when `stops` was
specified; `f.stops === value.stops` is an exact equality test. -/
def stopsFilter (q : ValidQuery) (offers : List NormalizedOffer) :
    List NormalizedOffer :=
  match q.stops with
  | some s => offers.filter (fun f => (f.stops : Int) == s)
  | none => offers

/-- The preferred-airlines re-check (lines 139-141): applied only when
`preferredAirlines` is present and non-empty. -/
def airlineFilter (q : ValidQuery) (offers : List NormalizedOffer) :
    List NormalizedOffer :=
  match q.preferredAirlines with
  | some l =>
    if 0 < l.length then offers.filter (fun f => l.contains f.airline)
    else offers
  | none => offers

/-- The post-fetch filter pipeline (lines 134-141), in the code's fixed
order: first the stops filter, then the airline filter.  There is no price
filter in the pipeline. -/
def applyFilters (q : ValidQuery) (offers : List NormalizedOffer) :
    List NormalizedOffer :=
  airlineFilter q (stopsFilter q offers)

/-- The outcome of the flight-offers provider call: a raw offer list, or a
failure whose `err.response.data.errors` detail list is present (`some`,
already mapped to the `e.detail` strings) or absent (`none`: network error,
malformed response, or a `TypeError` thrown before the call). -/
inductive ProviderOutcome where
  | success (offers : List RawOffer)
  | failure (errors : Option (List String))
  deriving Repr, DecidableEq

/-- The HTTP response of the `/search` route: `res.json(offers)` or
`res.status(status).json({ error: message })`. -/
inductive SearchResponse where
  | ok (offers : List NormalizedOffer)
  | err (status : Nat) (message : String)
  deriving Repr, DecidableEq

/-- Observable outcome of one `/search` request: the response, the token
cache state afterwards, and the number of network calls issued. -/
structure HandlerOutcome where
  response : SearchResponse
  state : TokenState
  networkCalls : Nat
  deriving Repr, DecidableEq

/-- JS `array.join` with separator comma-space, on the message lists. -/
def joinComma (l : List String) : String := String.intercalate ", " l

/-- The generic 500 message of the `/search` catch block (line 150). -/
def genericSearchError : String :=
  "Error fetching flight offers. Please try again later."

/-- The `POST /search` handler (lines 75-152).  Validation failure returns
400 with the joined messages before any network activity.  Otherwise the
token is fetched (0 or 1 calls), the flight-offers call is issued (1 call),
and either the provider fails (the catch block distinguishes a structured
detail list, 502, from everything else, 500), or the offers are normalized
— a malformed offer makes the mapping throw, landing in the same generic
500 branch — filtered, and returned. -/
def handleSearch (body : ReqBody) (st : TokenState) (now tNow : Int)
    (tokResp : TokenResponse) (provider : ProviderOutcome) : HandlerOutcome :=
  match validateSearch body with
  | Except.error errs => ⟨SearchResponse.err 400 (joinComma errs), st, 0⟩
  | Except.ok q =>
    let ft := fetchAmadeusAccessToken st now tNow tokResp
    match provider with
    | ProviderOutcome.failure (some details) =>
      ⟨SearchResponse.err 502 (joinComma details), ft.state, ft.networkCalls + 1⟩
    | ProviderOutcome.failure none =>
      ⟨SearchResponse.err 500 genericSearchError, ft.state, ft.networkCalls + 1⟩
    | ProviderOutcome.success raws =>
      match raws.mapM normalizeOffer with
      | none => ⟨SearchResponse.err 500 genericSearchError, ft.state, ft.networkCalls + 1⟩
      | some offers =>
        ⟨SearchResponse.ok (applyFilters q offers), ft.state, ft.networkCalls + 1⟩

/-! ## Concrete data for counterexamples and witnesses -/

/-- A concrete raw offer whose itinerary duration is `"5HPT"`: the literal
`"PT"` occurs, but not as a prefix. -/
def ptMidOffer : RawOffer :=
  { itineraries :=
      [ { duration := "5HPT",
          segments :=
            [ { carrierCode := "AF", number := "123",
                departure := { iataCode := "CMN", «at» := "2025-01-01T10:00" },
                arrival := { iataCode := "ORY", «at» := "2025-01-01T13:00" },
                duration := "PT3H" } ] } ],
    price := { total := "100.00", currency := "EUR" } }

/-- A concrete segment for the C4/C9 witnesses. -/
def directSegment : Segment :=
  { carrierCode := "LH", number := "400",
    departure := { iataCode := "FRA", «at» := "2025-02-01T08:00" },
    arrival := { iataCode := "JFK", «at» := "2025-02-01T11:05" },
    duration := "PT5H30M" }

/-- A concrete well-formed itinerary for the C4/C9 witnesses. -/
def directItinerary : Itinerary :=
  { duration := "PT5H30M", segments := [directSegment] }

/-- A concrete well-formed raw offer built on `directItinerary`. -/
def directOffer : RawOffer :=
  { itineraries := [directItinerary],
    price := { total := "250.00", currency := "EUR" } }

/-- An offer with no itineraries at all. -/
def noItineraryOffer : RawOffer :=
  { itineraries := [], price := { total := "1.00", currency := "EUR" } }

/-- A request body that is valid apart from carrying the undeclared keys
`minPrice` and `maxPrice`. -/
def priceParamsBody : ReqBody :=
  { origin := some "PAR", destination := some "NYC", date := some "2025-03-01",
    adults := some 1, preferredAirlines := none, stops := none,
    unknownKeys := ["minPrice", "maxPrice"] }

/-- A fully valid request body. -/
def validBody : ReqBody :=
  { origin := some "CMN", destination := some "ORY", date := some "2025-03-01",
    adults := some 1, preferredAirlines := none, stops := none,
    unknownKeys := [] }

/-- The validated value of `validBody`. -/
def validQueryCMN : ValidQuery :=
  { origin := "CMN", destination := "ORY", date := "2025-03-01", adults := 1,
    preferredAirlines := none, stops := none }

/-- A request body whose `origin` has only two letters. -/
def shortOriginBody : ReqBody :=
  { origin := some "PA", destination := some "NYC", date := some "2025-03-01",
    adults := some 1, preferredAirlines := none, stops := none,
    unknownKeys := [] }

/-- A validated query requesting exactly zero stops. -/
def stopsZeroQuery : ValidQuery :=
  { origin := "CMN", destination := "ORY", date := "2025-03-01", adults := 1,
    preferredAirlines := none, stops := some 0 }

/-- A normalized offer with `n + 1` segments, hence `stops = n`. -/
def stopOffer (n : Nat) : NormalizedOffer :=
  { airline := "AF", flightNumber := "1", departureAirport := "CMN",
    departureTime := "2025-03-01T10:00", arrivalAirport := "ORY",
    arrivalTime := "2025-03-01T13:00", duration := "3h",
    price := "100.00 EUR", stops := n,
    segments :=
      List.replicate (n + 1)
        { airline := "AF", flightNumber := "1", departureAirport := "CMN",
          departureTime := "2025-03-01T10:00", arrivalAirport := "ORY",
          arrivalTime := "2025-03-01T13:00", duration := "PT3H" } }

/-- A validated query requesting exactly one stop. -/
def stopsOneQuery : ValidQuery :=
  { origin := "CMN", destination := "ORY", date := "2025-03-01", adults := 1,
    preferredAirlines := none, stops := some 1 }

/-- A raw one-segment offer with the given price total (currency EUR). -/
def pricedOffer (total : String) : RawOffer :=
  { itineraries := [ { duration := "PT3H", segments := [directSegment] } ],
    price := { total := total, currency := "EUR" } }

/-- A request body violating all three checked rules at once: non-integral
`adults`, out-of-range `stops`, and an undeclared key. -/
def badFieldsBody : ReqBody :=
  { origin := some "CMN", destination := some "ORY", date := some "2025-03-01",
    adults := some ((5 : Rat) / 2), preferredAirlines := none,
    stops := some 7, unknownKeys := ["minPrice"] }

/-- The predicate "adults is not an integer in 1..9": absent, non-integral, or out of
range (on the typed JSON field). -/
def adultsInvalid (b : ReqBody) : Prop :=
  match b.adults with
  | none => True
  | some r => ¬(r.den = 1 ∧ (1 : Rat) ≤ r ∧ r ≤ (9 : Rat))

/-- The predicate "stops is present but not an integer in 0..3". -/
def stopsInvalid (b : ReqBody) : Prop :=
  match b.stops with
  | none => False
  | some r => ¬(r.den = 1 ∧ (0 : Rat) ≤ r ∧ r ≤ (3 : Rat))

/-! ## Helper lemmas -/

/-- When the pattern matches at the front, JS `replace` rewrites the first
match, i.e. the prefix. -/
theorem listReplaceFirst_of_matchesAt (pat rep l : List Char)
    (h : matchesAt pat l = true) :
    listReplaceFirst pat rep l = rep ++ l.drop pat.length := by
  cases l with
  | nil => simp [listReplaceFirst, h]
  | cons c cs => simp [listReplaceFirst, h]

/-- Two `List.filter` passes commute. -/
theorem filter_swap {α : Type} (p q : α → Bool) (l : List α) :
    (l.filter p).filter q = (l.filter q).filter p := by
  induction l with
  | nil => rfl
  | cons a t ih =>
    cases hp : p a <;> cases hq : q a <;>
      simp [List.filter_cons, hp, hq, ih]

/-- With no requested stop count the stops filter is the identity. -/
theorem stopsFilter_none (q : ValidQuery) (h : q.stops = none)
    (l : List NormalizedOffer) : stopsFilter q l = l := by
  unfold stopsFilter
  rw [h]

/-- With a requested stop count the stops filter is a `List.filter`. -/
theorem stopsFilter_some (q : ValidQuery) (s : Int) (h : q.stops = some s)
    (l : List NormalizedOffer) :
    stopsFilter q l = l.filter (fun f => (f.stops : Int) == s) := by
  unfold stopsFilter
  rw [h]

/-- With no preferred airlines the airline filter is the identity. -/
theorem airlineFilter_none (q : ValidQuery) (h : q.preferredAirlines = none)
    (l : List NormalizedOffer) : airlineFilter q l = l := by
  unfold airlineFilter
  rw [h]

/-- With a non-empty preferred-airlines list the airline filter is a
`List.filter`. -/
theorem airlineFilter_some_pos (q : ValidQuery) (al : List String)
    (h : q.preferredAirlines = some al) (hl : 0 < al.length)
    (l : List NormalizedOffer) :
    airlineFilter q l = l.filter (fun f => al.contains f.airline) := by
  unfold airlineFilter
  rw [h]
  exact if_pos hl

/-- With an empty preferred-airlines list the airline filter is the
identity. -/
theorem airlineFilter_some_neg (q : ValidQuery) (al : List String)
    (h : q.preferredAirlines = some al) (hl : ¬ 0 < al.length)
    (l : List NormalizedOffer) : airlineFilter q l = l := by
  unfold airlineFilter
  rw [h]
  exact if_neg hl

/-- Whenever the collected schema messages are non-empty, validation
reports exactly that error list. -/
theorem validateSearch_error_of_ne_nil (b : ReqBody)
    (h : searchSchemaErrors b ≠ []) :
    validateSearch b = Except.error (searchSchemaErrors b) := by
  unfold validateSearch
  cases ho : b.origin <;> cases hd : b.destination <;> cases hdt : b.date <;>
    cases ha : b.adults <;>
      simp [List.isEmpty_iff, h]

/-- A non-empty `adults` error list forces the whole collected message list
to be non-empty. -/
theorem searchSchemaErrors_ne_nil_of_adults (b : ReqBody)
    (h : adultsErrors b.adults ≠ []) : searchSchemaErrors b ≠ [] := by
  unfold searchSchemaErrors
  simp [List.append_eq_nil]
  intro _ _ _ h4
  exact absurd h4 h

/-- A non-empty `stops` error list forces the whole collected message list
to be non-empty. -/
theorem searchSchemaErrors_ne_nil_of_stops (b : ReqBody)
    (h : stopsErrors b.stops ≠ []) : searchSchemaErrors b ≠ [] := by
  unfold searchSchemaErrors
  simp [List.append_eq_nil]
  intro _ _ _ _ _ h6
  exact absurd h6 h

/-- An unknown key forces the whole collected message list to be
non-empty. -/
theorem searchSchemaErrors_ne_nil_of_unknown (b : ReqBody)
    (h : b.unknownKeys ≠ []) : searchSchemaErrors b ≠ [] := by
  unfold searchSchemaErrors
  simp [List.append_eq_nil]
  intro _ _ _ _ _ _ h7
  exact absurd h7 h

/-- A two-letter (trimmed) origin forces the whole collected message list
to be non-empty. -/
theorem searchSchemaErrors_ne_nil_of_short_origin (b : ReqBody) (s : String)
    (horig : b.origin = some s) (hlen : (jsTrim s).length = 2) :
    searchSchemaErrors b ≠ [] := by
  unfold searchSchemaErrors
  rw [horig]
  simp [codeFieldErrors, hlen]

/-- An invalid `adults` value produces at least one `adults` message. -/
theorem adultsErrors_ne_nil (v : Option Rat)
    (h : match v with
         | none => True
         | some r => ¬(r.den = 1 ∧ (1 : Rat) ≤ r ∧ r ≤ (9 : Rat))) :
    adultsErrors v ≠ [] := by
  match v with
  | none => simp [adultsErrors]
  | some r =>
    unfold adultsErrors
    simp [List.append_eq_nil]
    intro h1 h2
    by_contra h3
    exact h ⟨h1, h2, not_lt.mp h3⟩

/-- An invalid `stops` value produces at least one `stops` message. -/
theorem stopsErrors_ne_nil (r : Rat)
    (h : ¬(r.den = 1 ∧ (0 : Rat) ≤ r ∧ r ≤ (3 : Rat))) :
    stopsErrors (some r) ≠ [] := by
  unfold stopsErrors
  simp [List.append_eq_nil]
  intro h1 h2
  by_contra h3
  exact h ⟨h1, h2, not_lt.mp h3⟩

/-! ## Theorems: token cache -/

/-- C2 (counterexample): the claim quantifies over every cache state whose
token is non-null.  The state holding the empty string is such a state, and
at time 50 < expiry 100 the routine nevertheless issues a network call and
overwrites the cache, because the line-38 guard `accessToken && ...` tests
JS truthiness and the empty string is falsy. -/
theorem C2_counterexample :
    (TokenState.mk (some "") 100).accessToken.isSome = true ∧
    ((50 : Int) < 100) ∧
    (fetchAmadeusAccessToken ⟨some "", 100⟩ 50 50 ⟨"fresh", 1799⟩).networkCalls = 1 ∧
    (fetchAmadeusAccessToken ⟨some "", 100⟩ 50 50 ⟨"fresh", 1799⟩).state ≠
      TokenState.mk (some "") 100 := by
  refine ⟨rfl, by decide, rfl, by decide⟩

/-- C2 (amended): for every cache state whose token is non-null and
non-empty, if the current time is strictly before the stored expiry then
`fetchAmadeusAccessToken` returns the cached token, issues zero network
calls, and leaves the state unchanged. -/
theorem C2_cached_token_returned (st : TokenState) (now tNow : Int)
    (resp : TokenResponse) (s : String)
    (hs : st.accessToken = some s) (hne : s ≠ "")
    (hlt : now < st.tokenExpiresAt) :
    fetchAmadeusAccessToken st now tNow resp =
      { token := s, state := st, networkCalls := 0 } := by
  unfold fetchAmadeusAccessToken
  rw [hs]
  have htruthy : jsTruthyToken (some s) = true := by
    simp [jsTruthyToken, hne]
  rw [htruthy]
  simp [hlt, Option.getD]

/-- C2 witness: concrete instance of the amended theorem. -/
theorem C2_witness :
    fetchAmadeusAccessToken ⟨some "cached", 1000⟩ 500 500 ⟨"fresh", 1799⟩ =
      { token := "cached", state := ⟨some "cached", 1000⟩, networkCalls := 0 } :=
  C2_cached_token_returned ⟨some "cached", 1000⟩ 500 500 ⟨"fresh", 1799⟩
    "cached" rfl (by decide) (by decide)

/-- C3: whenever no token is cached or the current time is at or past the
stored expiry, `fetchAmadeusAccessToken` issues exactly one token request,
stores the returned `access_token`, sets the stored expiry to the refresh
time plus `expires_in * 1000 - 60000` (one-minute safety margin), and
returns the new token. -/
theorem C3_refresh_updates_state (st : TokenState) (now tNow : Int)
    (resp : TokenResponse)
    (h : st.accessToken = none ∨ st.tokenExpiresAt ≤ now) :
    fetchAmadeusAccessToken st now tNow resp =
      { token := resp.access_token,
        state := { accessToken := some resp.access_token,
                   tokenExpiresAt := tNow + resp.expires_in * 1000 - 60000 },
        networkCalls := 1 } := by
  unfold fetchAmadeusAccessToken
  rcases h with h | h
  · rw [h]
    simp [jsTruthyToken]
  · have hnot : ¬ (now < st.tokenExpiresAt) := not_lt.mpr h
    simp [hnot]

/-- C3 witness: concrete instance on the initial (empty) cache. -/
theorem C3_witness :
    fetchAmadeusAccessToken initialTokenState 0 0 ⟨"tok", 1799⟩ =
      { token := "tok", state := ⟨some "tok", 1739000⟩, networkCalls := 1 } :=
  C3_refresh_updates_state initialTokenState 0 0 ⟨"tok", 1799⟩ (Or.inl rfl)

/-! ## Theorems: normalization -/

/-- C4 (counterexample): on an itinerary duration `"5HPT"` the code's
`duration.replace('PT','').toLowerCase()` deletes the mid-string `"PT"` and
yields `"5h"`, while removing a (non-existent) `PT` prefix and lower-casing
the remainder yields `"5hpt"` (or leaves `"5HPT"`); the claim's description
of the duration field is therefore false on this offer. -/
theorem C4_counterexample :
    (normalizeOffer ptMidOffer).map NormalizedOffer.duration = some "5h" ∧
    stripPTPrefixLower "5HPT" = "5hpt" ∧
    ("5h" : String) ≠ "5hpt" ∧ ("5h" : String) ≠ "5HPT" := by
  refine ⟨by decide, by decide, by decide, by decide⟩

/-- C4 (amended): for every raw offer whose first itinerary has a non-empty
segment list, the normalized offer takes airline, flight number and
departure data from the first segment, arrival data from the last segment,
duration equal to the itinerary duration with the FIRST occurrence of the
literal `"PT"` removed and the result lower-cased — which, whenever the
duration begins with `"PT"`, coincides with stripping that prefix and
lower-casing the remainder (`PT5H30M` ↦ `5h30m`) — price equal to the total,
a space, and the currency code, stops equal to segment count minus one, and
segments mapped verbatim (segment-level duration kept in provider format). -/
theorem C4_normalization_fields (offer : RawOffer) (it : Itinerary)
    (its : List Itinerary) (s0 : Segment) (rest : List Segment)
    (h1 : offer.itineraries = it :: its) (h2 : it.segments = s0 :: rest) :
    normalizeOffer offer =
      some { airline := s0.carrierCode,
             flightNumber := s0.number,
             departureAirport := s0.departure.iataCode,
             departureTime := s0.departure.«at»,
             arrivalAirport := ((s0 :: rest).getLast (List.cons_ne_nil s0 rest)).arrival.iataCode,
             arrivalTime := ((s0 :: rest).getLast (List.cons_ne_nil s0 rest)).arrival.«at»,
             duration := jsToLowerCase (jsReplaceFirst it.duration "PT" ""),
             price := offer.price.total ++ " " ++ offer.price.currency,
             stops := (s0 :: rest).length - 1,
             segments := (s0 :: rest).map normalizeSegment } ∧
    (matchesAt "PT".data it.duration.data = true →
      jsToLowerCase (jsReplaceFirst it.duration "PT" "") = stripPTPrefixLower it.duration) := by
  constructor
  · simp only [normalizeOffer, h1, h2]
  · intro h
    have hrw : jsReplaceFirst it.duration "PT" "" =
        String.mk (it.duration.data.drop 2) := by
      unfold jsReplaceFirst
      rw [listReplaceFirst_of_matchesAt _ _ _ h]
      rfl
    rw [hrw]
    unfold stripPTPrefixLower
    rw [if_pos h]

/-- C4 witness: the amended theorem at `directOffer`; in particular the
spec's examples hold: duration `PT5H30M` ↦ `5h30m` and price
`250.00` + `EUR` ↦ `"250.00 EUR"`. -/
theorem C4_witness :
    normalizeOffer directOffer =
      some { airline := "LH", flightNumber := "400",
             departureAirport := "FRA", departureTime := "2025-02-01T08:00",
             arrivalAirport := "JFK", arrivalTime := "2025-02-01T11:05",
             duration := "5h30m", price := "250.00 EUR", stops := 0,
             segments := [ { airline := "LH", flightNumber := "400",
                             departureAirport := "FRA",
                             departureTime := "2025-02-01T08:00",
                             arrivalAirport := "JFK",
                             arrivalTime := "2025-02-01T11:05",
                             duration := "PT5H30M" } ] } ∧
    jsToLowerCase (jsReplaceFirst "PT5H30M" "PT" "") = stripPTPrefixLower "PT5H30M" := by
  have h := C4_normalization_fields directOffer directItinerary []
    directSegment [] rfl (by decide)
  refine ⟨?_, h.2 (by decide)⟩
  rw [h.1]
  decide

/-- C9: the unguarded indexing of `itineraries[0]`, `segments[0]` and
`segments[length-1]` is safe exactly on well-formed offers: when the first
itinerary exists and has a non-empty segment list the normalization is
defined, and when there is no itinerary or the segment list is empty it
faults (embedded as `none`). -/
theorem C9_index_safety (offer : RawOffer) :
    (∀ it its, offer.itineraries = it :: its → it.segments ≠ [] →
        (normalizeOffer offer).isSome = true) ∧
    ((offer.itineraries = [] ∨
        ∃ it its, offer.itineraries = it :: its ∧ it.segments = []) →
      normalizeOffer offer = none) := by
  constructor
  · intro it its h1 h2
    cases hs : it.segments with
    | nil => exact absurd hs h2
    | cons s0 rest => simp [normalizeOffer, h1, hs]
  · rintro (h | ⟨it, its, h1, h2⟩)
    · simp [normalizeOffer, h]
    · simp [normalizeOffer, h1, h2]

/-- C9 witness: the safety theorem at a well-formed offer and at an offer
with no itinerary. -/
theorem C9_witness :
    (normalizeOffer directOffer).isSome = true ∧
    normalizeOffer noItineraryOffer = none :=
  ⟨(C9_index_safety directOffer).1 directItinerary [] rfl (by decide),
   (C9_index_safety noItineraryOffer).2 (Or.inl rfl)⟩

/-! ## Theorems: filter pipeline -/

/-- C5: when a request specifies `stops`, the stops filter keeps exactly
the offers whose `stops` field (segment count minus one) equals the
requested value — exact match, not at-most. -/
theorem C5_stops_exact_filter (q : ValidQuery) (offers : List NormalizedOffer)
    (s : Int) (h : q.stops = some s) :
    stopsFilter q offers = offers.filter (fun f => (f.stops : Int) == s) ∧
    ∀ f, f ∈ stopsFilter q offers ↔ f ∈ offers ∧ (f.stops : Int) = s := by
  have h1 : stopsFilter q offers = offers.filter (fun f => (f.stops : Int) == s) := by
    unfold stopsFilter
    rw [h]
  refine ⟨h1, fun f => ?_⟩
  rw [h1]
  simp [List.mem_filter]

/-- C5 witness: with `stops = 0` and offers of segment counts 1, 2, 3 only
the 1-segment offer survives; with `stops = 1` only the 2-segment offer
survives (so the filter is not an at-most filter). -/
theorem C5_witness :
    stopsFilter stopsZeroQuery [stopOffer 0, stopOffer 1, stopOffer 2] =
      [stopOffer 0] ∧
    stopsFilter stopsOneQuery [stopOffer 0, stopOffer 1, stopOffer 2] =
      [stopOffer 1] ∧
    (stopOffer 0).segments.length = 1 ∧ (stopOffer 1).segments.length = 2 ∧
    (stopOffer 2).segments.length = 3 := by
  have h0 := (C5_stops_exact_filter stopsZeroQuery
    [stopOffer 0, stopOffer 1, stopOffer 2] 0 rfl).1
  have h1 := (C5_stops_exact_filter stopsOneQuery
    [stopOffer 0, stopOffer 1, stopOffer 2] 1 rfl).1
  refine ⟨?_, ?_, by decide, by decide, by decide⟩
  · rw [h0]
    decide
  · rw [h1]
    decide

/-- C8: the two filters of the code's post-fetch pipeline (the stops filter
and the preferred-airlines filter; the pipeline has no price filter, cf.
C1) yield the same result in either application order, and the pipeline
output is a sublist of its input: filters only remove elements and never
reorder. -/
theorem C8_filters_commute_and_preserve_order (q : ValidQuery)
    (offers : List NormalizedOffer) :
    stopsFilter q (airlineFilter q offers) =
      airlineFilter q (stopsFilter q offers) ∧
    List.Sublist (applyFilters q offers) offers := by
  constructor
  · cases hs : q.stops with
    | none => rw [stopsFilter_none q hs, stopsFilter_none q hs]
    | some s =>
      rw [stopsFilter_some q s hs, stopsFilter_some q s hs]
      cases ha : q.preferredAirlines with
      | none => rw [airlineFilter_none q ha, airlineFilter_none q ha]
      | some al =>
        by_cases hl : 0 < al.length
        · rw [airlineFilter_some_pos q al ha hl, airlineFilter_some_pos q al ha hl]
          exact filter_swap _ _ offers
        · rw [airlineFilter_some_neg q al ha hl, airlineFilter_some_neg q al ha hl]
  · have hsub1 : List.Sublist (stopsFilter q offers) offers := by
      cases hs : q.stops with
      | none =>
        rw [stopsFilter_none q hs]
      | some s =>
        rw [stopsFilter_some q s hs]
        exact List.filter_sublist _
    have hsub2 : List.Sublist (airlineFilter q (stopsFilter q offers))
        (stopsFilter q offers) := by
      cases ha : q.preferredAirlines with
      | none =>
        rw [airlineFilter_none q ha]
      | some al =>
        by_cases hl : 0 < al.length
        · rw [airlineFilter_some_pos q al ha hl]
          exact List.filter_sublist _
        · rw [airlineFilter_some_neg q al ha hl]
    exact hsub2.trans hsub1

/-! ## Theorems: `/search` error handling and validation -/

/-- C6: when the provider call fails during a validated `/search`, a
structured error detail list produces status 502 with the joined detail
messages, and any other failure produces status 500 with the generic
message. -/
theorem C6_error_mapping (body : ReqBody) (st : TokenState) (now tNow : Int)
    (tokResp : TokenResponse) (q : ValidQuery) (ds : List String)
    (hv : validateSearch body = Except.ok q) :
    handleSearch body st now tNow tokResp (ProviderOutcome.failure (some ds)) =
      { response := SearchResponse.err 502 (joinComma ds),
        state := (fetchAmadeusAccessToken st now tNow tokResp).state,
        networkCalls := (fetchAmadeusAccessToken st now tNow tokResp).networkCalls + 1 } ∧
    handleSearch body st now tNow tokResp (ProviderOutcome.failure none) =
      { response := SearchResponse.err 500 genericSearchError,
        state := (fetchAmadeusAccessToken st now tNow tokResp).state,
        networkCalls := (fetchAmadeusAccessToken st now tNow tokResp).networkCalls + 1 } := by
  unfold handleSearch
  rw [hv]
  exact ⟨rfl, rfl⟩

/-- C6 witness: the mapping at a concrete valid body, a concrete two-detail
provider error and a concrete opaque failure. -/
theorem C6_witness :
    handleSearch validBody initialTokenState 0 0 ⟨"tok", 1799⟩
        (ProviderOutcome.failure (some ["ERROR ONE", "ERROR TWO"])) =
      { response := SearchResponse.err 502 "ERROR ONE, ERROR TWO",
        state := ⟨some "tok", 1739000⟩, networkCalls := 2 } ∧
    handleSearch validBody initialTokenState 0 0 ⟨"tok", 1799⟩
        (ProviderOutcome.failure none) =
      { response := SearchResponse.err 500 genericSearchError,
        state := ⟨some "tok", 1739000⟩, networkCalls := 2 } := by
  have h := C6_error_mapping validBody initialTokenState 0 0 ⟨"tok", 1799⟩
    validQueryCMN ["ERROR ONE", "ERROR TWO"] rfl
  exact ⟨by rw [h.1]; rfl, by rw [h.2]; rfl⟩

/-- C7: a request whose `origin` trims to two characters fails validation:
the response is 400 with the joined field-level messages, the token cache
is unchanged, and no network call is issued. -/
theorem C7_validation_rejects_before_network (body : ReqBody)
    (st : TokenState) (now tNow : Int) (tokResp : TokenResponse)
    (provider : ProviderOutcome) (s : String)
    (horig : body.origin = some s) (hlen : (jsTrim s).length = 2) :
    searchSchemaErrors body ≠ [] ∧
    validateSearch body = Except.error (searchSchemaErrors body) ∧
    handleSearch body st now tNow tokResp provider =
      { response := SearchResponse.err 400 (joinComma (searchSchemaErrors body)),
        state := st, networkCalls := 0 } := by
  have hne := searchSchemaErrors_ne_nil_of_short_origin body s horig hlen
  have hval := validateSearch_error_of_ne_nil body hne
  refine ⟨hne, hval, ?_⟩
  unfold handleSearch
  rw [hval]

/-- C7 witness: the rejection at the concrete body with origin `"PA"`. -/
theorem C7_witness :
    searchSchemaErrors shortOriginBody ≠ [] ∧
    validateSearch shortOriginBody =
      Except.error (searchSchemaErrors shortOriginBody) ∧
    handleSearch shortOriginBody initialTokenState 0 0 ⟨"tok", 1799⟩
        (ProviderOutcome.success []) =
      { response := SearchResponse.err 400 (joinComma (searchSchemaErrors shortOriginBody)),
        state := initialTokenState, networkCalls := 0 } :=
  C7_validation_rejects_before_network shortOriginBody initialTokenState 0 0
    ⟨"tok", 1799⟩ (ProviderOutcome.success []) "PA" rfl (by decide)

/-- C10: a body whose `adults` is not an integer in 1..9, or whose `stops`
is present but not an integer in 0..3, or that carries any key beyond the
six declared ones (`minPrice`/`maxPrice` included) is rejected with 400 and
the joined messages, before any network call and without touching the
token cache. -/
theorem C10_schema_rejections (body : ReqBody) (st : TokenState)
    (now tNow : Int) (tokResp : TokenResponse) (provider : ProviderOutcome)
    (h : adultsInvalid body ∨ stopsInvalid body ∨ body.unknownKeys ≠ []) :
    searchSchemaErrors body ≠ [] ∧
    validateSearch body = Except.error (searchSchemaErrors body) ∧
    handleSearch body st now tNow tokResp provider =
      { response := SearchResponse.err 400 (joinComma (searchSchemaErrors body)),
        state := st, networkCalls := 0 } := by
  have hne : searchSchemaErrors body ≠ [] := by
    rcases h with h | h | h
    · unfold adultsInvalid at h
      exact searchSchemaErrors_ne_nil_of_adults body (adultsErrors_ne_nil body.adults h)
    · unfold stopsInvalid at h
      cases hs : body.stops with
      | none =>
        rw [hs] at h
        exact h.elim
      | some r =>
        rw [hs] at h
        refine searchSchemaErrors_ne_nil_of_stops body ?_
        rw [hs]
        exact stopsErrors_ne_nil r h
    · exact searchSchemaErrors_ne_nil_of_unknown body h
  have hval := validateSearch_error_of_ne_nil body hne
  refine ⟨hne, hval, ?_⟩
  unfold handleSearch
  rw [hval]

/-- C10 witness: the rejection at a concrete body with `adults = 5/2`,
`stops = 7` and the undeclared key `minPrice`. -/
theorem C10_witness :
    searchSchemaErrors badFieldsBody ≠ [] ∧
    validateSearch badFieldsBody =
      Except.error (searchSchemaErrors badFieldsBody) ∧
    handleSearch badFieldsBody initialTokenState 0 0 ⟨"tok", 1799⟩
        (ProviderOutcome.success []) =
      { response := SearchResponse.err 400 (joinComma (searchSchemaErrors badFieldsBody)),
        state := initialTokenState, networkCalls := 0 } :=
  C10_schema_rejections badFieldsBody initialTokenState 0 0 ⟨"tok", 1799⟩
    (ProviderOutcome.success []) (Or.inr (Or.inr (by decide)))

/-- C1 (counterexample): a `/search` request that specifies `minPrice` and
`maxPrice` (with otherwise valid fields), against a provider response with
offers priced 90.00, 150.00 and 250.00, is answered with a 400 validation
error — the schema forbids the undeclared price keys — and not with an
offer list, so the returned list does not consist of the 150 offer. -/
theorem C1_counterexample :
    handleSearch priceParamsBody initialTokenState 0 0 ⟨"tok", 1799⟩
        (ProviderOutcome.success
          [pricedOffer "90.00", pricedOffer "150.00", pricedOffer "250.00"]) =
      { response := SearchResponse.err 400
          "\"minPrice\" is not allowed, \"maxPrice\" is not allowed",
        state := initialTokenState, networkCalls := 0 } ∧
    (handleSearch priceParamsBody initialTokenState 0 0 ⟨"tok", 1799⟩
        (ProviderOutcome.success
          [pricedOffer "90.00", pricedOffer "150.00", pricedOffer "250.00"])).response ≠
      SearchResponse.ok (normalizeOffer (pricedOffer "150.00")).toList := by
  exact ⟨by decide, by decide⟩

/-- C1 (amended): `minPrice`/`maxPrice` are not declared schema keys, so
any request carrying one of them is rejected with 400 (joined messages,
cache untouched, zero network calls); and the post-fetch pipeline applies
no price filter at all — with `stops` and `preferredAirlines` unspecified
it passes every offer through (in particular offers priced 90, 150 and 250
would all survive). -/
theorem C1_amended_price_params_rejected (body : ReqBody) (st : TokenState)
    (now tNow : Int) (tokResp : TokenResponse) (provider : ProviderOutcome)
    (q : ValidQuery) (offers : List NormalizedOffer)
    (hkey : "minPrice" ∈ body.unknownKeys ∨ "maxPrice" ∈ body.unknownKeys)
    (hstops : q.stops = none) (hair : q.preferredAirlines = none) :
    validateSearch body = Except.error (searchSchemaErrors body) ∧
    handleSearch body st now tNow tokResp provider =
      { response := SearchResponse.err 400 (joinComma (searchSchemaErrors body)),
        state := st, networkCalls := 0 } ∧
    applyFilters q offers = offers := by
  have huk : body.unknownKeys ≠ [] := by
    rcases hkey with h | h <;> exact List.ne_nil_of_mem h
  have hne := searchSchemaErrors_ne_nil_of_unknown body huk
  have hval := validateSearch_error_of_ne_nil body hne
  refine ⟨hval, ?_, ?_⟩
  · unfold handleSearch
    rw [hval]
  · unfold applyFilters airlineFilter stopsFilter
    rw [hstops, hair]

/-- C1 witness: the amended theorem at the concrete `minPrice`/`maxPrice`
body and at a concrete filter-free query over three offers. -/
theorem C1_amended_witness :
    validateSearch priceParamsBody =
      Except.error (searchSchemaErrors priceParamsBody) ∧
    handleSearch priceParamsBody initialTokenState 0 0 ⟨"tok", 1799⟩
        (ProviderOutcome.success []) =
      { response := SearchResponse.err 400 (joinComma (searchSchemaErrors priceParamsBody)),
        state := initialTokenState, networkCalls := 0 } ∧
    applyFilters validQueryCMN [stopOffer 0, stopOffer 1, stopOffer 2] =
      [stopOffer 0, stopOffer 1, stopOffer 2] :=
  C1_amended_price_params_rejected priceParamsBody initialTokenState 0 0
    ⟨"tok", 1799⟩ (ProviderOutcome.success []) validQueryCMN
    [stopOffer 0, stopOffer 1, stopOffer 2]
    (Or.inl (by decide)) rfl rfl

end Beausejour
